import Mathlib

/-!
Verification of the `tau` socket-test client (`src/socket-test/main.py`)
against its natural-language specification.

The script is embedded shallowly: `main()` becomes the pure function
`pyMain` over a `World` describing the behaviour of the transport (whether
`connect` and `sendall` succeed, and which bytes the single `recv(10)` call
returns).  A run yields the trace of completed observable actions and the
exception, if any, that aborted it.  The frame encoder/decoder pair of the
spec, which the script only inlines for one fixed frame, is modelled
separately from the spec's words where a claim needs it.
-/

namespace Tau

/-- ASCII bytes of the literal `b"TAU"` (main.py line 16). -/
def MAGIC : List Nat := [0x54, 0x41, 0x55]

/-- The hard-coded 32-byte certificate, bytes `0x00` through `0x1f`
(main.py lines 5-10). -/
def cert : List Nat :=
  [0x00, 0x01, 0x02, 0x03, 0x04, 0x05, 0x06, 0x07,
   0x08, 0x09, 0x0a, 0x0b, 0x0c, 0x0d, 0x0e, 0x0f,
   0x10, 0x11, 0x12, 0x13, 0x14, 0x15, 0x16, 0x17,
   0x18, 0x19, 0x1a, 0x1b, 0x1c, 0x1d, 0x1e, 0x1f]

/-- `struct.pack(">I", n)`: the four big-endian bytes of an unsigned 32-bit
integer (main.py line 16). -/
def bePack32 (n : Nat) : List Nat :=
  [n / 2 ^ 24 % 256, n / 2 ^ 16 % 256, n / 2 ^ 8 % 256, n % 256]

/-- `header = b"TAU" + bytes([1, 0x01, 0]) + struct.pack(">I", 32)`
(main.py line 16). -/
def header : List Nat := MAGIC ++ [1, 0x01, 0] ++ bePack32 32

/-- The argument of `sock.sendall`, i.e. `header + cert` (main.py line 17). -/
def requestFrame : List Nat := header ++ cert

/-- Observable actions of a run of the script. -/
inductive Event : Type
  | connect : Event
  | send : List Nat → Event
  | recvCall : Nat → List Nat → Event
  | print : String → Event
  | close : Event
  deriving DecidableEq

/-- Exceptions a run of the script can raise. -/
inductive PyError : Type
  | connectionError : PyError
  | sendError : PyError
  | indexError : PyError
  deriving DecidableEq

/-- Behaviour of the transport during one run: whether `sock.connect`
succeeds, whether `sock.sendall` succeeds, and the byte string the single
`sock.recv(10)` call returns (the empty list models an immediate EOF). -/
structure World : Type where
  connectOk : Bool
  sendOk : Bool
  recvData : List Nat
  deriving DecidableEq

/-- Shallow embedding of `main()` (main.py lines 3-23): connect, send the
fixed CONNECT frame, issue one `recv(10)`, index byte 4 of the result,
print the classification, close.  The result is the trace of completed
actions paired with the exception, if any, that aborted the run.  The
source has no try/finally: `sock.close()` is only the last statement of
the straight-line path, and `resp[4]` raises `IndexError` when `recv`
returned fewer than 5 bytes. -/
def pyMain (w : World) : List Event × Option PyError :=
  if w.connectOk = false then
    ([], some .connectionError)
  else if w.sendOk = false then
    ([.connect], some .sendError)
  else
    match w.recvData[4]? with
    | none =>
        ([.connect, .send requestFrame, .recvCall 10 w.recvData],
         some .indexError)
    | some op =>
        ([.connect, .send requestFrame, .recvCall 10 w.recvData,
          .print (if op = 0xF0 then "OK" else "ERR"), .close], none)

/-- The string printed by a run, when the run reaches the `print`. -/
def printedOutput (w : World) : Option String :=
  (pyMain w).1.findSome? fun e =>
    match e with
    | .print s => some s
    | _ => none

/-- All bytes the run wrote to the transport: the concatenation of the
payloads of its `send` events, in order. -/
def sentBytes (w : World) : List Nat :=
  ((pyMain w).1.filterMap fun e =>
    match e with
    | .send bs => some bs
    | _ => none).flatten

/-- Whether an event is a read of the transport. -/
def isRecvEvent : Event → Bool
  | .recvCall _ _ => true
  | _ => false

/-- The events of a trace that happen strictly before its first read of
the transport. -/
def beforeFirstRecv (tr : List Event) : List Event :=
  tr.takeWhile fun e => !isRecvEvent e

/-- Failure of the frame encoder of the spec. -/
inductive EncodeError : Type
  | invalidArgument : EncodeError
  deriving DecidableEq

/-- Modelled from the spec: §4.1 Frame Encoder.  The repository has no
general encoder; main.py line 16 only inlines the one fixed CONNECT frame.
Spec layout: magic(3) then version(1) then opcode(1) then reserved zero(1)
then big-endian uint32 payload length, then the payload; a payload whose
length exceeds the 32-bit range is rejected with `InvalidArgument` before
encoding. -/
def encodeFrame (opcode : Nat) (payload : List Nat) :
    Except EncodeError (List Nat) :=
  if payload.length < 2 ^ 32 then
    .ok (MAGIC ++ [1, opcode, 0] ++ bePack32 payload.length ++ payload)
  else
    .error .invalidArgument

/-- Big-endian reassembly of four bytes into the unsigned 32-bit value,
the inverse of `bePack32`. -/
def beUnpack32 (a b c d : Nat) : Nat :=
  ((a * 256 + b) * 256 + c) * 256 + d

/-- The parsed fields of a 10-byte frame header (spec §3). -/
structure FrameHeader : Type where
  magic : List Nat
  version : Nat
  opcode : Nat
  reserved : Nat
  declaredLen : Nat
  deriving DecidableEq

/-- Modelled from the spec: §3 frame layout, read side.  The repository has
no decoder at all; the spec fixes the 10-byte header as bytes 0-2 magic,
byte 3 version, byte 4 opcode, byte 5 reserved, bytes 6-9 the big-endian
payload length, with the payload following.  Fewer than 10 bytes is not a
complete header. -/
def decodeFrameHeader : List Nat → Option (FrameHeader × List Nat)
  | m0 :: m1 :: m2 :: v :: op :: r :: l0 :: l1 :: l2 :: l3 :: rest =>
      some (⟨[m0, m1, m2], v, op, r, beUnpack32 l0 l1 l2 l3⟩, rest)
  | _ => none

/-- Modelled from the spec: §4.2 Send — encode, then write the frame; on an
encoding failure no write is issued.  The result lists the I/O actions
performed. -/
def sendFrame (opcode : Nat) (payload : List Nat) :
    Except EncodeError (List Event) :=
  match encodeFrame opcode payload with
  | .ok f => .ok [.send f]
  | .error e => .error e

/-- C1 (code bug): when the peer closes after sending only 7 of the 10
response-header bytes, the single `recv(10)` hands the truncated data to the
classifier, which indexes byte 4 and prints "OK" with no error raised —
the run does not fail with `UnexpectedEof`, it silently acts on a truncated
header. -/
theorem C1_truncated_header_accepted :
    (pyMain ⟨true, true, [0x54, 0x41, 0x55, 0x01, 0xF0, 0x00, 0x00]⟩).2
      = none
    ∧ Event.print "OK"
        ∈ (pyMain ⟨true, true, [0x54, 0x41, 0x55, 0x01, 0xF0, 0x00, 0x00]⟩).1 := by
  decide

/-- C2 (code bug): when the transport delivers one byte per call, the single
`recv(10)` returns that one byte and the run aborts with `IndexError` at
`resp[4]` — there is no loop over partial reads, so the classification of a
response split into chunks differs from the single-chunk classification. -/
theorem C2_no_read_loop :
    (pyMain ⟨true, true, [0x54]⟩).2 = some PyError.indexError
    ∧ printedOutput ⟨true, true, [0x54]⟩ = none := by
  decide

/-- C3: the bytes the client writes to the transport are exactly the
42-byte sequence "TAU", version 0x01, opcode 0x01, reserved 0x00, the
big-endian uint32 value 32, and the payload bytes 0x00 through 0x1F in
sequence. -/
theorem C3_request_bytes (w : World)
    (hc : w.connectOk = true) (hs : w.sendOk = true) :
    sentBytes w
      = [0x54, 0x41, 0x55, 0x01, 0x01, 0x00, 0x00, 0x00, 0x00, 0x20]
          ++ List.range 32
    ∧ (sentBytes w).length = 42 := by
  have hbody :
      requestFrame
        = [0x54, 0x41, 0x55, 0x01, 0x01, 0x00, 0x00, 0x00, 0x00, 0x20]
            ++ List.range 32
      ∧ requestFrame.length = 42 := by decide
  cases hr : w.recvData[4]? <;>
    simpa [sentBytes, pyMain, hc, hs, hr] using hbody

/-- Witness for C3 at the transport that accepts the connection and the
write and then returns nothing. -/
theorem C3_request_bytes_witness :
    sentBytes ⟨true, true, []⟩
      = [0x54, 0x41, 0x55, 0x01, 0x01, 0x00, 0x00, 0x00, 0x00, 0x20]
          ++ List.range 32
    ∧ (sentBytes ⟨true, true, []⟩).length = 42 :=
  C3_request_bytes ⟨true, true, []⟩ rfl rfl

/-- C4: on a fully received 10-byte response header the client prints "OK"
exactly when byte 4 is 0xF0, and prints "ERR" for every other value of that
byte, the classification being computed from the literal byte at offset 4. -/
theorem C4_status_classification (resp : List Nat) (h : resp.length = 10) :
    (printedOutput ⟨true, true, resp⟩ = some "OK" ↔ resp[4]? = some 0xF0)
    ∧ (∀ op, resp[4]? = some op → op ≠ 0xF0 →
        printedOutput ⟨true, true, resp⟩ = some "ERR") := by
  have h4 : 4 < resp.length := by omega
  cases hr : resp[4]? with
  | none =>
      rw [List.getElem?_eq_none_iff] at hr
      omega
  | some op =>
      by_cases hop : op = 0xF0 <;>
        simp [printedOutput, pyMain, hr, hop]

/-- Witness for C4 at a full 10-byte header carrying the success status. -/
theorem C4_status_classification_witness :
    (printedOutput ⟨true, true, [0x54, 0x41, 0x55, 0x01, 0xF0, 0, 0, 0, 0, 0]⟩
        = some "OK"
      ↔ ([0x54, 0x41, 0x55, 0x01, 0xF0, 0, 0, 0, 0, 0] : List Nat)[4]?
          = some 0xF0)
    ∧ (∀ op,
        ([0x54, 0x41, 0x55, 0x01, 0xF0, 0, 0, 0, 0, 0] : List Nat)[4]?
            = some op →
        op ≠ 0xF0 →
        printedOutput ⟨true, true, [0x54, 0x41, 0x55, 0x01, 0xF0, 0, 0, 0, 0, 0]⟩
          = some "ERR") :=
  C4_status_classification [0x54, 0x41, 0x55, 0x01, 0xF0, 0, 0, 0, 0, 0]
    (by decide)

/-- C5 (code bug): on the premature-close path (the peer closes before any
response byte arrives, so `recv` returns the empty byte string) the run
aborts with `IndexError` at `resp[4]` before reaching `sock.close()`: the
trace of that exit path contains no close event. -/
theorem C5_close_skipped_on_failure :
    (pyMain ⟨true, true, []⟩).2 = some PyError.indexError
    ∧ Event.close ∉ (pyMain ⟨true, true, []⟩).1 := by
  decide

/-- C6: decoding the frame produced by the encoder yields back the same
magic, version, opcode, reserved byte and declared length, and the bytes
after the header are exactly the original payload. -/
theorem C6_roundtrip (op : Nat) (payload : List Nat)
    (hop : op < 256) (hlen : payload.length < 2 ^ 32) :
    ∃ frame, encodeFrame op payload = .ok frame
      ∧ decodeFrameHeader frame
          = some (⟨MAGIC, 1, op, 0, payload.length⟩, payload) := by
  have henc : encodeFrame op payload
      = .ok (MAGIC ++ [1, op, 0] ++ bePack32 payload.length ++ payload) := by
    rw [encodeFrame, if_pos hlen]
  refine ⟨MAGIC ++ [1, op, 0] ++ bePack32 payload.length ++ payload, henc, ?_⟩
  simp only [MAGIC, bePack32, List.cons_append, List.nil_append,
    decodeFrameHeader, Option.some.injEq, Prod.mk.injEq, FrameHeader.mk.injEq,
    beUnpack32, List.cons.injEq, and_true, true_and]
  omega

/-- Witness for C6 at the CONNECT opcode and the 32-byte certificate. -/
theorem C6_roundtrip_witness :
    ∃ frame, encodeFrame 1 cert = .ok frame
      ∧ decodeFrameHeader frame
          = some (⟨MAGIC, 1, 1, 0, cert.length⟩, cert) :=
  C6_roundtrip 1 cert (by decide) (by decide)

/-- C7: every frame the program writes to the transport declares, in the
big-endian 32-bit field at bytes 6-9, exactly the number of payload bytes
that follow the 10-byte header. -/
theorem C7_length_invariant (w : World) (bs : List Nat)
    (h : Event.send bs ∈ (pyMain w).1) :
    (bs.drop 6).take 4 = bePack32 (bs.drop 10).length := by
  have hbs : bs = requestFrame := by
    rcases w with ⟨co, so, rd⟩
    cases co
    · simp [pyMain] at h
    · cases so
      · simp [pyMain] at h
      · cases hr : rd[4]? with
        | none => simpa [pyMain, hr] using h
        | some op => simpa [pyMain, hr] using h
  subst hbs
  decide

/-- Witness for C7 at the one frame the successful run sends. -/
theorem C7_length_invariant_witness :
    (requestFrame.drop 6).take 4 = bePack32 (requestFrame.drop 10).length :=
  C7_length_invariant ⟨true, true, []⟩ requestFrame (by decide)

/-- C8: a payload whose length exceeds the unsigned 32-bit range is rejected
by the encoder with `InvalidArgument`, and the send pipeline built on it
performs no write at all. -/
theorem C8_oversized_rejected (op : Nat) (payload : List Nat)
    (h : 2 ^ 32 ≤ payload.length) :
    encodeFrame op payload = .error .invalidArgument
    ∧ sendFrame op payload = .error .invalidArgument := by
  have hlt : ¬ payload.length < 2 ^ 32 := by omega
  have henc : encodeFrame op payload = .error .invalidArgument := by
    rw [encodeFrame, if_neg hlt]
  refine ⟨henc, ?_⟩
  simp only [sendFrame, henc]

/-- Witness for C8 at a payload of length exactly 2 raised to 32. -/
theorem C8_oversized_rejected_witness :
    encodeFrame 1 (List.replicate (2 ^ 32) 0) = .error .invalidArgument
    ∧ sendFrame 1 (List.replicate (2 ^ 32) 0) = .error .invalidArgument :=
  C8_oversized_rejected 1 (List.replicate (2 ^ 32) 0)
    (by rw [List.length_replicate])

/-- C9: in every run that issues a read of the transport, the send of the
full 42-byte request frame occurs strictly before the first read. -/
theorem C9_send_before_recv (w : World)
    (h : ∃ e ∈ (pyMain w).1, isRecvEvent e = true) :
    Event.send requestFrame ∈ beforeFirstRecv (pyMain w).1 := by
  rcases w with ⟨co, so, rd⟩
  rcases h with ⟨e, he, hrecv⟩
  cases co
  · simp [pyMain] at he
  · cases so
    · simp [pyMain] at he
      subst he
      simp [isRecvEvent] at hrecv
    · cases hr : rd[4]? with
      | none => simp [pyMain, hr, beforeFirstRecv, isRecvEvent, List.takeWhile]
      | some op => simp [pyMain, hr, beforeFirstRecv, isRecvEvent, List.takeWhile]

/-- Witness for C9 at the run whose recv returns an empty byte string. -/
theorem C9_send_before_recv_witness :
    Event.send requestFrame ∈ beforeFirstRecv (pyMain ⟨true, true, []⟩).1 :=
  C9_send_before_recv ⟨true, true, []⟩ ⟨Event.recvCall 10 [], by decide, rfl⟩

/-- C10: the printed output depends only on the byte at offset 4 of the
received response: two received responses of length at least 5 that agree
at offset 4 produce the same output, whatever their other bytes are. -/
theorem C10_only_byte4 (r1 r2 : List Nat)
    (h1 : 5 ≤ r1.length) (h2 : 5 ≤ r2.length) (h : r1[4]? = r2[4]?) :
    printedOutput ⟨true, true, r1⟩ = printedOutput ⟨true, true, r2⟩ := by
  cases hr : r1[4]? with
  | none =>
      rw [List.getElem?_eq_none_iff] at hr
      omega
  | some op =>
      rw [hr] at h
      simp [printedOutput, pyMain, hr, h.symm]

/-- Witness for C10 at two responses agreeing only at offset 4. -/
theorem C10_only_byte4_witness :
    printedOutput ⟨true, true, [0, 0, 0, 0, 0xF0]⟩
      = printedOutput ⟨true, true, [9, 9, 9, 9, 0xF0, 7, 7, 7, 7, 7]⟩ :=
  C10_only_byte4 [0, 0, 0, 0, 0xF0] [9, 9, 9, 9, 0xF0, 7, 7, 7, 7, 7]
    (by decide) (by decide) (by decide)

end Tau
